import Mathlib

/-!
Shallow embedding of the station-matching, observation-fusion and
forecast/observation-merge engine of the `aq-biascorrection` repository
(modules `src/data/extraction/openaq_obs.py` and `src/models/load_data.py`),
together with theorems settling the frozen specification claims.

Modelling conventions:
* timestamps are integer hours (`ℤ`); the pandas day truncation performed by
  `strftime('%Y-%m-%d')` becomes flooring to a multiple of 24;
* float values are modelled by `ℚ`; a pandas `NaN` cell is `Option.none`;
* Python exceptions become an explicit `Except PyError` result;
* the network calls of the OpenAQ client (`self.api.locations`,
  `self.api.measurements`) are inputs: the station table returned by the
  directory is a `List StationRow` argument, and the per-station measurement
  fetch of `OpenAQDownloader._get_data` is an oracle argument of `get_data`.
-/

/-- PyError enumerates the Python exception classes that the embedded code can
raise, each constructor corresponding to one concrete `raise` site (or runtime
error site) of the source. -/
inductive PyError where
  /-- `TypeError`: in `DataLoader.weight_average_with_distance`,
  `np.array(distance_and_value.keys())` is a 0-d object array holding a
  `dict_keys` view, and dividing it by a float raises `TypeError`. -/
  | typeError
  /-- `KeyError`: `long_name[self.variable]` lookup failure in
  `OpenAQDownloader.create_xarray_dataset_with_attrs`. -/
  | keyError
  /-- `IndexError`: `station['parameters'][0]` on an empty parameter list. -/
  | indexError
  /-- `NotImplementedError` raised by `OpenAQDownloader.__init__` for an
  unknown variable name. -/
  | notImplementedError
  /-- `Exception('There are no stations next to this location ...')` raised by
  `OpenAQDownloader._get_closest_stations_to_location`. -/
  | noStationsFound
  /-- `Exception('Not data was retrieved')` raised by
  `OpenAQDownloader.get_data`. -/
  | noDataRetrieved
  deriving DecidableEq, Repr

/-- Location mirrors the dataclass of `src/data/utils.py`: a location of
interest with its coordinates (degrees, as exact rationals). -/
structure Location where
  location_id : String
  city : String
  country : String
  latitude : ℚ
  longitude : ℚ
  distance : ℚ := 0
  deriving DecidableEq, Repr

/-- Parameter is one entry of the `parameters` metadata list of an OpenAQ
station row (the fields read by the source: parameter name and unit). -/
structure Parameter where
  parameter : String
  unit : String
  deriving DecidableEq, Repr

/-- StationRow is one row of the station DataFrame returned by
`self.api.locations` in `OpenAQDownloader._get_closest_stations_to_location`,
restricted to the columns the source reads.  `firstUpdated`/`lastUpdated` are
integer hours; `distance` is the value of the `distance` column that
`get_closest_stations_to_location` computes with
`get_distance_between_two_points_on_earth` (kept abstract here because the
ranking logic only reads the resulting number). -/
structure StationRow where
  id : ℤ
  sensorType : String
  firstUpdated : ℤ
  lastUpdated : ℤ
  latitude : ℚ
  longitude : ℚ
  distance : ℚ
  parameters : List Parameter := []
  deriving DecidableEq, Repr

/-- dayFloor truncates an integer-hour timestamp to midnight of its day; this
is what `datetime.datetime.strftime(ts, '%Y-%m-%d')` followed by
`pd.date_range(..., freq='H')` does to the endpoints of the station interval
in `OpenAQDownloader.get_closest_stations_to_location`. -/
def dayFloor (t : ℤ) : ℤ := 24 * (t.fdiv 24)

/-- hourRange a b lists the hourly timestamps from `a` to `b` inclusive
(empty when `b < a`), the model of `pd.date_range(a, b, freq='H')` on
integer-hour endpoints. -/
def hourRange (a b : ℤ) : List ℤ :=
  (List.range (b - a + 1).toNat).map (fun i => a + (i : ℤ))

/-- is_in_temporal_range is the per-station value appended to the
`is_in_temporal_range` column in
`OpenAQDownloader.get_closest_stations_to_location` (lines 103-135):
`1` when the requested range `[start, end]` is inside the station range
`[first, last]`; the sentinel `-1` when the requested end precedes the
station's first timestamp; otherwise the fraction of hourly timestamps of the
requested range that fall inside the day-truncated station range. -/
def is_in_temporal_range (start end_ first last : ℤ) : ℚ :=
  if first ≤ start ∧ end_ ≤ last then 1
  else if end_ < first then -1
  else
    let openaq_dates := hourRange (dayFloor first) (dayFloor last)
    let user_dates := hourRange start end_
    ((user_dates.filter (fun t => t ∈ openaq_dates)).length : ℚ) /
      (user_dates.length : ℚ)

/-- combination_dist_and_is_in_temporal_range is the ranking key column of
`get_closest_stations_to_location` (lines 139-141): `distance` divided by the
temporal score.  A zero score gives `+inf` in pandas float arithmetic (which
`sort_values` places last), modelled by `⊤` in `WithTop ℚ`. -/
def combination_dist_and_is_in_temporal_range (start end_ : ℤ) (s : StationRow) :
    WithTop ℚ :=
  let score := is_in_temporal_range start end_ s.firstUpdated s.lastUpdated
  if score = 0 then ⊤ else (s.distance / score : ℚ)

/-- station_rank_le is the comparison used to model
`stations.sort_values('combination_dist_and_is_in_temporal_range', ascending=True)`. -/
def station_rank_le (start end_ : ℤ) (a b : StationRow) : Prop :=
  combination_dist_and_is_in_temporal_range start end_ a ≤
    combination_dist_and_is_in_temporal_range start end_ b

instance (start end_ : ℤ) : DecidableRel (station_rank_le start end_) := by
  intro a b
  unfold station_rank_le
  infer_instance

/-- rank_stations is the tail of
`OpenAQDownloader.get_closest_stations_to_location` (lines 136-146): drop the
stations whose `is_in_temporal_range` equals the sentinel `-1`, then sort
ascending by the combination key. -/
def rank_stations (start end_ : ℤ) (stations : List StationRow) : List StationRow :=
  List.insertionSort (station_rank_le start end_)
    (stations.filter
      (fun s => is_in_temporal_range start end_ s.firstUpdated s.lastUpdated != -1))

namespace OpenAQDownloader

/-- init_variable models the variable validation of `OpenAQDownloader.__init__`
(lines 52-56): the five recognised variable names are accepted, anything else
raises `NotImplementedError`. -/
def init_variable (v : String) : Except PyError String :=
  if v ∈ ["o3", "no2", "so2", "pm10", "pm25"] then .ok v
  else .error .notImplementedError

/-- _get_closest_stations_to_location models
`OpenAQDownloader._get_closest_stations_to_location` (lines 148-172): the
station table returned by `self.api.locations` for the 100 km radius query is
the argument; an empty table raises; if at least one station has
`sensorType == 'reference grade'` the table is narrowed to those rows. -/
def _get_closest_stations_to_location (stations : List StationRow) :
    Except PyError (List StationRow) :=
  if stations.length = 0 then .error .noStationsFound
  else if 1 ≤ (stations.filter (fun s => s.sensorType == "reference grade")).length
    then .ok (stations.filter (fun s => s.sensorType == "reference grade"))
  else .ok stations

/-- get_closest_stations_to_location models
`OpenAQDownloader.get_closest_stations_to_location` (lines 81-146): apply the
sensor-quality selection and then score, filter the `-1` sentinel and sort by
the combination key (`rank_stations`). -/
def get_closest_stations_to_location (start end_ : ℤ) (api_stations : List StationRow) :
    Except PyError (List StationRow) :=
  (_get_closest_stations_to_location api_stations).map (rank_stations start end_)

/-- get_data_loop is the `for station in stations.iterrows()` loop of
`OpenAQDownloader.get_data` (lines 174-185): `fetch` is the oracle standing
for `self._get_data` (whose failures — variable missing at the station, no
data in the time range, network errors — are all caught by the bare
`except Exception: continue`); `downloaded` mirrors `stations_downloaded` and
the loop breaks once it reaches 5. -/
def get_data_loop {α : Type} (fetch : StationRow → Except Unit α) :
    List StationRow → Nat → List α → List α
  | [], _, acc => acc
  | s :: rest, downloaded, acc =>
    match fetch s with
    | .error _ => get_data_loop fetch rest downloaded acc
    | .ok d =>
      if downloaded + 1 = 5 then acc ++ [d]
      else get_data_loop fetch rest (downloaded + 1) (acc ++ [d])

/-- get_data models `OpenAQDownloader.get_data` (lines 174-190): run the fetch
loop over the ranked stations and raise `Exception('Not data was retrieved')`
when no station yielded a dataset. -/
def get_data {α : Type} (fetch : StationRow → Except Unit α)
    (stations : List StationRow) : Except PyError (List α) :=
  let xr_datasets := get_data_loop fetch stations 0 []
  if xr_datasets.isEmpty then .error .noDataRetrieved else .ok xr_datasets

/-- long_name is the variable long-name table of
`OpenAQDownloader.create_xarray_dataset_with_attrs` (lines 287-291); note that
it has no entry for `so2` or `pm10`. -/
def long_name : List (String × String) :=
  [("no2", "Nitrogen dioxide"),
   ("o3", "Ozone"),
   ("pm25", "Particulate matter (PM2.5)")]

/-- XrDatasetModel records the per-station dataset assembled by
`OpenAQDownloader.create_xarray_dataset_with_attrs`: the measurement series,
the coordinates it sets (`station_id`, `x`, `y`, `_x`, `_y`, `distance`) and
the variable attributes (`units`, `standard_name`, `long_name`). -/
structure XrDatasetModel where
  var_name : String
  series : List (ℤ × ℚ)
  station_id : ℤ
  x : ℚ
  y : ℚ
  loc_x : ℚ
  loc_y : ℚ
  distance : ℚ
  units : String
  standard_name : String
  var_long_name : String
  deriving DecidableEq, Repr

/-- create_xarray_dataset_with_attrs models
`OpenAQDownloader.create_xarray_dataset_with_attrs` (lines 241-298) for
variable `v`, location `loc`, measurement series `data` and station row
`station`.  The attribute assignments cannot fail; the two failure points, in
source order, are `station['parameters'][0]['unit']` (line 292, `IndexError`
on an empty list) and `long_name[self.variable]` (line 294, `KeyError` when
the table has no entry for `v`). -/
def create_xarray_dataset_with_attrs (v : String) (loc : Location)
    (data : List (ℤ × ℚ)) (station : StationRow) : Except PyError XrDatasetModel :=
  match station.parameters.get? 0 with
  | none => .error .indexError
  | some p0 =>
    match List.lookup v long_name with
    | none => .error .keyError
    | some ln =>
      .ok { var_name := v
            series := data
            station_id := station.id
            x := station.longitude
            y := station.latitude
            loc_x := loc.longitude
            loc_y := loc.latitude
            distance := station.distance
            units := p0.unit
            standard_name := v
            var_long_name := ln }

end OpenAQDownloader

/-- round_half_even rounds a rational to the nearest integer, ties to the even
integer — the rounding used by Python's `round` (and numpy) on floats. -/
def round_half_even (q : ℚ) : ℤ :=
  let f := ⌊q⌋
  if q - f < 1/2 then f
  else if 1/2 < q - f then f + 1
  else if f % 2 = 0 then f else f + 1

/-- round2 models Python's `round(x, 2)`: round to two decimal places, ties to
even. -/
def round2 (q : ℚ) : ℚ := (round_half_even (q * 100) : ℚ) / 100

/-- dict_insert is Python dict assignment `d[k] = v` on an insertion-ordered
association list: an existing key keeps its position and gets the new value,
a new key is appended at the end. -/
def dict_insert (k v : ℚ) : List (ℚ × ℚ) → List (ℚ × ℚ)
  | [] => [(k, v)]
  | (k', v') :: rest =>
    if k' = k then (k', v) :: rest else (k', v') :: dict_insert k v rest

/-- StationSeries is the slice of the concatenated observation dataset for one
station in `DataLoader.weight_average_with_distance`: its `distance` coordinate
and its per-timestamp values on the shared time index (`none` = `NaN`). -/
structure StationSeries where
  distance : ℚ
  values : List (Option ℚ)
  deriving DecidableEq, Repr, Inhabited

namespace DataLoader

/-- distance_and_value builds the `distance_and_value` dict of
`DataLoader.weight_average_with_distance` (lines 141-147) at time index `t`:
for each station with a non-`NaN` value, `d[round(1/distance, 2)] = value`. -/
def distance_and_value (t : Nat) (stations : List StationSeries) : List (ℚ × ℚ) :=
  stations.foldl
    (fun d s =>
      match s.values.getD t none with
      | none => d
      | some value => dict_insert (round2 (1 / s.distance)) value d)
    []

/-- weighted_value_at models lines 148-157 of
`DataLoader.weight_average_with_distance` at one timestamp: an empty dict
appends `np.nan`; otherwise the code evaluates
`np.array(distance_and_value.keys()) / sum(distance_and_value.keys())`, and
since `np.array` applied to a `dict_keys` view produces a 0-dimensional object
array, the division raises `TypeError` — no weighted average is ever
computed on this path. -/
def weighted_value_at (t : Nat) (stations : List StationSeries) :
    Except PyError (Option ℚ) :=
  if distance_and_value t stations = [] then .ok none
  else .error .typeError

/-- fuse_times runs `weighted_value_at` over the time indices in order,
propagating the first raised exception, as the `for time in ds.time.values`
loop does. -/
def fuse_times (stations : List StationSeries) :
    List Nat → Except PyError (List (Option ℚ))
  | [] => .ok []
  | t :: ts =>
    match weighted_value_at t stations with
    | .error e => .error e
    | .ok v =>
      match fuse_times stations ts with
      | .error e => .error e
      | .ok rest => .ok (v :: rest)

/-- weight_average_with_distance models
`DataLoader.weight_average_with_distance` (lines 129-161) on a dataset with
`n` timestamps: with exactly one station, `ds.mean('station_id')` over the
single station is the identity on its value series (a `NaN` stays `NaN`);
otherwise the per-timestamp dict/weighting loop runs over every time index. -/
def weight_average_with_distance (n : Nat) (stations : List StationSeries) :
    Except PyError (List (Option ℚ)) :=
  if stations.length = 1 then .ok stations.headI.values
  else fuse_times stations (List.range n)

/-- MergedRow is one row of `merged_pd` in `DataLoader.run` right after
`xr.merge` and `adding_local_time_hour`: the forecast and observed columns for
the variable (either may be `NaN` after the outer merge) and the
`local_time_hour` column (always an integer, never `NaN`). -/
structure MergedRow where
  forecast : Option ℚ
  observed : Option ℚ
  local_time_hour : ℤ
  deriving DecidableEq, Repr

/-- BiasRow is a `MergedRow` with the derived `{variable}_bias` column. -/
structure BiasRow extends MergedRow where
  bias : Option ℚ
  deriving DecidableEq, Repr

/-- sub_na is pandas column subtraction: `NaN` in either operand propagates. -/
def sub_na : Option ℚ → Option ℚ → Option ℚ
  | some a, some b => some (a - b)
  | _, _ => none

/-- dropna models `merged_pd.dropna()` (line 53): keep the rows whose columns
are all non-`NaN`. -/
def dropna (rows : List MergedRow) : List MergedRow :=
  rows.filter (fun r => r.forecast.isSome && r.observed.isSome)

/-- run models the tail of `DataLoader.run` (lines 52-61): drop the rows with
a `NaN` and append the bias column `forecast - observed`. -/
def run (merged : List MergedRow) : List BiasRow :=
  (dropna merged).map
    (fun r => { toMergedRow := r, bias := sub_na r.forecast r.observed })

end DataLoader

/-- atan2 is the two-argument arctangent of `math.atan2(y, x)`: the angle of
the point `(x, y)`, with `atan2 0 0 = 0` as in the C library. -/
noncomputable def atan2 (y x : ℝ) : ℝ :=
  if 0 < x then Real.arctan (y / x)
  else if x < 0 ∧ 0 ≤ y then Real.arctan (y / x) + Real.pi
  else if x < 0 then Real.arctan (y / x) - Real.pi
  else if 0 < y then Real.pi / 2
  else if y < 0 then -(Real.pi / 2)
  else 0

/-- get_distance_between_two_points_on_earth is the haversine distance of
`openaq_obs.py` lines 301-321: convert the four coordinates to radians and
apply the haversine formula on a sphere of radius 6373.0 km.  The source
performs no validation whatsoever on its arguments. -/
noncomputable def get_distance_between_two_points_on_earth
    (lat1 lat2 lon1 lon2 : ℝ) : ℝ :=
  let R : ℝ := 6373.0
  let lat1r := lat1 * (Real.pi / 180)
  let lon1r := lon1 * (Real.pi / 180)
  let lat2r := lat2 * (Real.pi / 180)
  let lon2r := lon2 * (Real.pi / 180)
  let dlon := lon2r - lon1r
  let dlat := lat2r - lat1r
  let a := Real.sin (dlat / 2) ^ 2 +
    Real.cos lat1r * Real.cos lat2r * Real.sin (dlon / 2) ^ 2
  let c := 2 * atan2 (Real.sqrt a) (Real.sqrt (1 - a))
  R * c

/-- InputError is the error kind the specification prescribes for
out-of-range coordinates. -/
inductive InputError where
  | invalidCoordinates
  deriving DecidableEq, Repr

open Classical in
/-- get_distance_spec_validated formalises the specification's words for the
great-circle distance function (spec §4.1 / claim C9): coordinates are
validated — a latitude outside `[-90, 90]` or a longitude outside
`[-180, 180]` fails with an input error — and in-range coordinates yield the
haversine distance.  It exists only to be compared with the unchecked source
function `get_distance_between_two_points_on_earth`. -/
noncomputable def get_distance_spec_validated (lat1 lat2 lon1 lon2 : ℝ) :
    Except InputError ℝ :=
  if (-90 ≤ lat1 ∧ lat1 ≤ 90) ∧ (-90 ≤ lat2 ∧ lat2 ≤ 90) ∧
      (-180 ≤ lon1 ∧ lon1 ≤ 180) ∧ (-180 ≤ lon2 ∧ lon2 ≤ 180) then
    .ok (get_distance_between_two_points_on_earth lat1 lat2 lon1 lon2)
  else .error .invalidCoordinates

/-! Theorems settling the claims. -/

/-- C8: a candidate station whose `[first_seen, last_seen]` interval fully
contains the requested `[start, end]` interval is scored exactly `1.0` by the
temporal-coverage scorer. -/
theorem full_containment_scores_one (start end_ first last : ℤ)
    (h1 : first ≤ start) (h2 : end_ ≤ last) :
    is_in_temporal_range start end_ first last = 1 := by
  rw [is_in_temporal_range, if_pos ⟨h1, h2⟩]

/-- Witness for C8 at a concrete containment instance. -/
theorem full_containment_scores_one_witness :
    is_in_temporal_range 0 10 (-5) 20 = 1 :=
  full_containment_scores_one 0 10 (-5) 20 (by decide) (by decide)

/-- Helper evaluation: a station covering hours `[240, 360]` scores `0`
(not the `-1` sentinel) against the later requested range `[480, 500]`. -/
theorem is_in_temporal_range_eval_station_before_request :
    is_in_temporal_range 480 500 240 360 = 0 := by
  rw [is_in_temporal_range, if_neg (by decide), if_neg (by decide)]
  show ((((hourRange 480 500).filter
      (fun t => t ∈ hourRange (dayFloor 240) (dayFloor 360))).length : ℚ) /
        ((hourRange 480 500).length : ℚ) = 0)
  rw [show ((hourRange 480 500).filter
      (fun t => t ∈ hourRange (dayFloor 240) (dayFloor 360))).length = 0 from by decide]
  simp

/-- stationEndsBeforeRequest is a candidate whose data interval (hours 240-360)
ends entirely before the requested interval (hours 480-500) begins. -/
def stationEndsBeforeRequest : StationRow :=
  { id := 1, sensorType := "low-cost sensor", firstUpdated := 240,
    lastUpdated := 360, latitude := 0, longitude := 0, distance := 7 }

/-- C1 counterexample: a station whose interval ends entirely before the
requested interval begins does NOT receive the `-1` sentinel (it is scored
`0` by the partial-overlap branch) and is NOT excluded: it survives into the
ranked candidate list returned by `get_closest_stations_to_location`. -/
theorem sentinel_direction_counterexample :
    stationEndsBeforeRequest.lastUpdated < 480 ∧
    is_in_temporal_range 480 500 stationEndsBeforeRequest.firstUpdated
      stationEndsBeforeRequest.lastUpdated ≠ -1 ∧
    OpenAQDownloader.get_closest_stations_to_location 480 500
      [stationEndsBeforeRequest] = .ok [stationEndsBeforeRequest] := by
  have hscore : is_in_temporal_range 480 500 stationEndsBeforeRequest.firstUpdated
      stationEndsBeforeRequest.lastUpdated = 0 :=
    is_in_temporal_range_eval_station_before_request
  refine ⟨by decide, by rw [hscore]; norm_num, ?_⟩
  rw [OpenAQDownloader.get_closest_stations_to_location,
    OpenAQDownloader._get_closest_stations_to_location]
  rw [if_neg (by decide), if_neg (by decide)]
  show Except.ok (rank_stations 480 500 [stationEndsBeforeRequest]) = _
  rw [rank_stations]
  simp [List.filter, hscore]

/-- C1 amended: the scorer assigns the `-1` sentinel exactly to the stations
whose first-seen timestamp lies strictly after the requested end (i.e. the
requested interval ends entirely before the station interval begins — the
converse of the claimed direction) and every sentinel-marked station is
excluded from the candidate list before ranking. -/
theorem sentinel_iff_request_precedes_station (start end_ : ℤ) (h : start ≤ end_)
    (first last : ℤ) (stations : List StationRow) :
    (is_in_temporal_range start end_ first last = -1 ↔ end_ < first) ∧
    (∀ s ∈ stations,
      is_in_temporal_range start end_ s.firstUpdated s.lastUpdated = -1 →
      ∀ out, OpenAQDownloader.get_closest_stations_to_location start end_ stations =
        .ok out → s ∉ out) := by
  constructor
  · constructor
    · intro heq
      rw [is_in_temporal_range] at heq
      split_ifs at heq with hc1 hc2
      · exact absurd heq (by norm_num)
      · exact hc2
      · exfalso
        have hnn : (0 : ℚ) ≤ -1 := heq ▸ div_nonneg (Nat.cast_nonneg _) (Nat.cast_nonneg _)
        norm_num at hnn
    · intro hlt
      rw [is_in_temporal_range, if_neg, if_pos hlt]
      rintro ⟨ha, hb⟩
      omega
  · intro s _ hsc out hout hmem
    rw [OpenAQDownloader.get_closest_stations_to_location] at hout
    cases hget : OpenAQDownloader._get_closest_stations_to_location stations with
    | error e => rw [hget] at hout; exact absurd hout (by simp [Except.map])
    | ok qual =>
      rw [hget] at hout
      simp only [Except.map, Except.ok.injEq] at hout
      rw [← hout] at hmem
      rw [rank_stations, List.mem_insertionSort, List.mem_filter] at hmem
      rw [hsc] at hmem
      simpa using hmem.2

/-- Witness for C1's amended theorem at concrete timestamps. -/
theorem sentinel_iff_request_precedes_station_witness :
    (is_in_temporal_range 0 10 20 30 = -1 ↔ (10 : ℤ) < 20) ∧
    (∀ s ∈ ([] : List StationRow),
      is_in_temporal_range 0 10 s.firstUpdated s.lastUpdated = -1 →
      ∀ out, OpenAQDownloader.get_closest_stations_to_location 0 10 [] = .ok out →
        s ∉ out) :=
  sentinel_iff_request_precedes_station 0 10 (by decide) 20 30 []

instance (start end_ : ℤ) : IsTotal StationRow (station_rank_le start end_) :=
  ⟨fun _ _ => le_total _ _⟩

instance (start end_ : ℤ) : IsTrans StationRow (station_rank_le start end_) :=
  ⟨fun _ _ _ => le_trans⟩

/-- C7: after the sentinel-marked stations are filtered out, the ranker
returns a permutation of the remaining candidates ordered ascending by the
combination key `distance / temporal_coverage_score`, so a candidate with a
strictly smaller key always precedes one with a larger key. -/
theorem ranked_stations_ascending_by_key (start end_ : ℤ)
    (stations : List StationRow) :
    (rank_stations start end_ stations).Pairwise (station_rank_le start end_) ∧
    (rank_stations start end_ stations).Perm
      (stations.filter
        (fun s => is_in_temporal_range start end_ s.firstUpdated s.lastUpdated != -1)) :=
  ⟨List.sorted_insertionSort (station_rank_le start end_) _,
   List.perm_insertionSort _ _⟩

/-- C4: on a non-empty candidate table, if some candidate is of class
`reference grade` the selector keeps exactly the reference-grade candidates
(membership in the result is membership in the input plus being
reference grade, irrespective of distance); otherwise it keeps the whole
table. -/
theorem selector_prefers_reference_grade (stations : List StationRow)
    (h : stations ≠ []) :
    ∃ res, OpenAQDownloader._get_closest_stations_to_location stations = .ok res ∧
      ((∃ s ∈ stations, s.sensorType = "reference grade") →
        ∀ t, t ∈ res ↔ (t ∈ stations ∧ t.sensorType = "reference grade")) ∧
      ((¬ ∃ s ∈ stations, s.sensorType = "reference grade") → res = stations) := by
  rw [OpenAQDownloader._get_closest_stations_to_location,
    if_neg (by simpa using h)]
  by_cases href : 1 ≤ (stations.filter (fun s => s.sensorType == "reference grade")).length
  · rw [if_pos href]
    refine ⟨_, rfl, fun _ t => ?_, fun hne => ?_⟩
    · simp [List.mem_filter]
    · exfalso
      obtain ⟨t, ht⟩ := List.exists_mem_of_length_pos (Nat.lt_of_lt_of_le Nat.zero_lt_one href)
      rw [List.mem_filter] at ht
      exact hne ⟨t, ht.1, by simpa using ht.2⟩
  · rw [if_neg href]
    refine ⟨_, rfl, fun hex t => ?_, fun _ => rfl⟩
    exfalso
    obtain ⟨s, hs, hsref⟩ := hex
    exact href (List.length_pos_iff_exists_mem.mpr
      ⟨s, List.mem_filter.mpr ⟨hs, by simpa using hsref⟩⟩)

/-- referenceStation50km mirrors the end-to-end spec scenario: a
reference-grade station 50 km away. -/
def referenceStation50km : StationRow :=
  { id := 1, sensorType := "reference grade", firstUpdated := 0,
    lastUpdated := 1000, latitude := 0, longitude := 0, distance := 50 }

/-- lowCostStation5km mirrors the end-to-end spec scenario: a low-cost
station only 5 km away. -/
def lowCostStation5km : StationRow :=
  { id := 2, sensorType := "low-cost sensor", firstUpdated := 0,
    lastUpdated := 1000, latitude := 0, longitude := 0, distance := 5 }

/-- Witness for C4: with a reference-grade station at 50 km and a low-cost
station at 5 km, the selector keeps only the reference-grade one. -/
theorem selector_prefers_reference_grade_witness :
    ∃ res, OpenAQDownloader._get_closest_stations_to_location
        [referenceStation50km, lowCostStation5km] = .ok res ∧
      referenceStation50km ∈ res ∧ lowCostStation5km ∉ res := by
  obtain ⟨res, h1, h2, -⟩ :=
    selector_prefers_reference_grade [referenceStation50km, lowCostStation5km]
      (by simp)
  have hmem := h2 ⟨referenceStation50km, by simp, rfl⟩
  refine ⟨res, h1, (hmem referenceStation50km).2 ⟨by simp, rfl⟩, fun hc => ?_⟩
  have hlc := ((hmem lowCostStation5km).1 hc).2
  exact absurd hlc (by simp [lowCostStation5km])

/-- Characterisation of the fetch loop of `OpenAQDownloader.get_data`: with
`downloaded = k` successes so far (`k < 5`), the loop appends the first
`5 - k` successful fetches, skipping every station whose fetch raises. -/
theorem get_data_loop_eq {α : Type} (fetch : StationRow → Except Unit α) :
    ∀ (stations : List StationRow) (k : Nat) (acc : List α), k < 5 →
      OpenAQDownloader.get_data_loop fetch stations k acc =
        acc ++ (stations.filterMap (fun s => (fetch s).toOption)).take (5 - k) := by
  intro stations
  induction stations with
  | nil => intro k acc _; simp [OpenAQDownloader.get_data_loop]
  | cons s rest ih =>
    intro k acc hk
    rw [OpenAQDownloader.get_data_loop]
    cases hfs : fetch s with
    | error e =>
      rw [ih k acc hk]
      simp [List.filterMap_cons, hfs, Except.toOption]
    | ok d =>
      show (if k + 1 = 5 then acc ++ [d]
          else OpenAQDownloader.get_data_loop fetch rest (k + 1) (acc ++ [d])) =
        acc ++ (List.filterMap (fun s => (fetch s).toOption) (s :: rest)).take (5 - k)
      by_cases h5 : k + 1 = 5
      · have h1 : 5 - k = 1 := by omega
        simp [h5, List.filterMap_cons, hfs, Except.toOption, h1]
      · rw [if_neg h5, ih (k + 1) (acc ++ [d]) (by omega)]
        have h1 : 5 - k = (5 - (k + 1)) + 1 := by omega
        simp [List.filterMap_cons, hfs, Except.toOption, h1, List.take_succ_cons]

/-- C5: the observation fetcher never propagates a per-station failure: it
raises `Not data was retrieved` exactly when every station in the ranked list
fails to yield data, and on success it returns the datasets of the first (at
most 5, at least 1) stations that yield data, in ranked order. -/
theorem fetcher_cap_skip_and_error {α : Type} (fetch : StationRow → Except Unit α)
    (stations : List StationRow) :
    (OpenAQDownloader.get_data fetch stations = .error .noDataRetrieved ↔
      ∀ s ∈ stations, fetch s = .error ()) ∧
    (∀ xs, OpenAQDownloader.get_data fetch stations = .ok xs →
      xs = (stations.filterMap (fun s => (fetch s).toOption)).take 5 ∧
      1 ≤ xs.length ∧ xs.length ≤ 5) := by
  have hloop := get_data_loop_eq fetch stations 0 [] (by omega)
  rw [OpenAQDownloader.get_data]
  simp only [hloop, List.nil_append, Nat.sub_zero]
  constructor
  · constructor
    · intro herr
      split at herr
      · next hemp =>
        intro s hs
        rw [List.isEmpty_iff, List.take_eq_nil_iff] at hemp
        have hnil : stations.filterMap (fun s => (fetch s).toOption) = [] := by
          rcases hemp with h | h
          · exact absurd h (by omega)
          · exact h
        rw [List.filterMap_eq_nil_iff] at hnil
        have := hnil s hs
        cases hfs : fetch s with
        | error e => rfl
        | ok d => rw [hfs] at this; exact absurd this (by simp [Except.toOption])
      · exact absurd herr (by simp)
    · intro hall
      have hnil : stations.filterMap (fun s => (fetch s).toOption) = [] := by
        rw [List.filterMap_eq_nil_iff]
        intro s hs
        rw [hall s hs]
        rfl
      rw [hnil]
      rfl
  · intro xs hxs
    split at hxs
    · exact absurd hxs (by simp)
    · next hemp =>
      rw [Except.ok.injEq] at hxs
      refine ⟨hxs.symm, ?_, ?_⟩
      · rw [← hxs]
        rw [List.isEmpty_iff] at hemp
        exact Nat.one_le_iff_ne_zero.mpr (fun h => hemp (List.length_eq_zero.mp h))
      · rw [← hxs]
        simp [List.length_take_le 5 _]

/-- fetchEvenId is a concrete fetch oracle: stations with an even id yield
their id, the others raise. -/
def fetchEvenId : StationRow → Except Unit ℤ :=
  fun s => if s.id % 2 = 0 then .ok s.id else .error ()

/-- mkStationId builds a minimal station row with a given id. -/
def mkStationId (i : ℤ) : StationRow :=
  { id := i, sensorType := "low-cost sensor", firstUpdated := 0,
    lastUpdated := 1000, latitude := 0, longitude := 0, distance := 1 }

/-- Witness for C5: on seven stations with ids 0..6 and the even-id oracle,
the fetcher returns the four successful datasets in order. -/
theorem fetcher_cap_skip_and_error_witness :
    ([(0 : ℤ), 2, 4, 6] =
      (((List.range 7).map (fun i => mkStationId i)).filterMap
        (fun s => (fetchEvenId s).toOption)).take 5) ∧
    1 ≤ ([(0 : ℤ), 2, 4, 6]).length ∧ ([(0 : ℤ), 2, 4, 6]).length ≤ 5 :=
  (fetcher_cap_skip_and_error fetchEvenId
    ((List.range 7).map (fun i => mkStationId i))).2 [0, 2, 4, 6] rfl

/-- C3: every row surviving `DataLoader.run` has a non-missing observed value,
and its bias column is exactly `forecast - observed`. -/
theorem merged_rows_have_observed_and_exact_bias
    (merged : List DataLoader.MergedRow) :
    ∀ r ∈ DataLoader.run merged, ∃ f o,
      r.forecast = some f ∧ r.observed = some o ∧ r.bias = some (f - o) := by
  intro r hr
  rw [DataLoader.run, List.mem_map] at hr
  obtain ⟨m, hm, hrm⟩ := hr
  rw [DataLoader.dropna, List.mem_filter] at hm
  obtain ⟨-, hcols⟩ := hm
  rw [Bool.and_eq_true, Option.isSome_iff_exists, Option.isSome_iff_exists] at hcols
  obtain ⟨⟨f, hf⟩, o, ho⟩ := hcols
  refine ⟨f, o, ?_, ?_, ?_⟩
  · rw [← hrm]; exact hf
  · rw [← hrm]; exact ho
  · rw [← hrm]
    show DataLoader.sub_na m.forecast m.observed = some (f - o)
    rw [hf, ho]
    rfl

/-- Witness for C3 at a three-row merged table (one complete row, one with a
missing forecast, one with a missing observation). -/
theorem merged_rows_have_observed_and_exact_bias_witness :
    ∃ f o, (DataLoader.BiasRow.mk ⟨some 5, some 3, 0⟩ (some 2)).forecast = some f ∧
      (DataLoader.BiasRow.mk ⟨some 5, some 3, 0⟩ (some 2)).observed = some o ∧
      (DataLoader.BiasRow.mk ⟨some 5, some 3, 0⟩ (some 2)).bias = some (f - o) :=
  merged_rows_have_observed_and_exact_bias
    [⟨some 5, some 3, 0⟩, ⟨none, some 1, 2⟩, ⟨some 4, none, 3⟩]
    (DataLoader.BiasRow.mk ⟨some 5, some 3, 0⟩ (some 2))
    (by simp [DataLoader.run, DataLoader.dropna, DataLoader.sub_na]; norm_num)

/-- C2 (code bug): two stations at the same distance (1 km) both reporting at
the single shared timestamp (values 2 and 4) do not fuse to the arithmetic
mean 3 — `DataLoader.weight_average_with_distance` raises `TypeError`,
because `np.array(distance_and_value.keys())` wraps the `dict_keys` view in a
0-dimensional object array that cannot be divided by the weight sum (and the
dict, keyed by the rounded weight, had already collapsed the two
equal-distance stations into one entry). -/
theorem equal_distance_fusion_raises_type_error :
    DataLoader.weight_average_with_distance 1
      [⟨1, [some 2]⟩, ⟨1, [some 4]⟩] = .error .typeError := by
  norm_num [DataLoader.weight_average_with_distance, DataLoader.fuse_times,
    DataLoader.weighted_value_at, DataLoader.distance_and_value, List.range_succ,
    dict_insert, round2, round_half_even]

/-- Helper: when every station value at time `t` is missing, the
`distance_and_value` dict stays empty. -/
theorem distance_and_value_all_missing (t : Nat) (stations : List StationSeries)
    (h : ∀ s ∈ stations, s.values.getD t none = none) :
    DataLoader.distance_and_value t stations = [] := by
  induction stations with
  | nil => rfl
  | cons s rest ih =>
    rw [DataLoader.distance_and_value, List.foldl_cons,
      h s (List.mem_cons_self s rest)]
    exact ih (fun s' hs' => h s' (List.mem_cons_of_mem s hs'))

/-- Helper: a successful run of the per-timestamp fusion loop returns one
value per time index, each produced by `weighted_value_at` at that index. -/
theorem fuse_times_ok_spec (stations : List StationSeries) :
    ∀ (ts : List Nat) (out : List (Option ℚ)),
      DataLoader.fuse_times stations ts = .ok out →
      out.length = ts.length ∧ ∀ j, j < ts.length →
        DataLoader.weighted_value_at (ts.getD j 0) stations = .ok (out.getD j none) := by
  intro ts
  induction ts with
  | nil =>
    intro out hout
    rw [DataLoader.fuse_times, Except.ok.injEq] at hout
    subst hout
    exact ⟨rfl, fun j hj => absurd hj (by simp)⟩
  | cons t ts' ih =>
    intro out hout
    rw [DataLoader.fuse_times] at hout
    cases hv : DataLoader.weighted_value_at t stations with
    | error e => rw [hv] at hout; exact absurd hout (by simp)
    | ok v =>
      rw [hv] at hout
      cases hr : DataLoader.fuse_times stations ts' with
      | error e => rw [hr] at hout; exact absurd hout (by simp)
      | ok rest =>
        rw [hr] at hout
        rw [Except.ok.injEq] at hout
        obtain ⟨hlen, hall⟩ := ih rest hr
        subst hout
        refine ⟨by simp [hlen], fun j hj => ?_⟩
        cases j with
        | zero => simpa using hv
        | succ j' =>
          simp only [List.getD_cons_succ]
          exact hall j' (by simpa using hj)

/-- C6: whenever the fuser returns a series, that series has one entry per
timestamp of the shared time index, and at every timestamp where no input
station has a non-missing value the fused entry is the explicit missing
marker `none` — never a fabricated number and never dropped. -/
theorem fused_missing_timestamps_stay_missing (n : Nat)
    (stations : List StationSeries) (out : List (Option ℚ))
    (hlen : ∀ s ∈ stations, s.values.length = n)
    (hok : DataLoader.weight_average_with_distance n stations = .ok out) :
    out.length = n ∧
    ∀ t, t < n → (∀ s ∈ stations, s.values.getD t none = none) →
      out.getD t none = none := by
  rw [DataLoader.weight_average_with_distance] at hok
  by_cases hone : stations.length = 1
  · rw [if_pos hone, Except.ok.injEq] at hok
    obtain ⟨a, ha⟩ := List.length_eq_one.mp hone
    subst ha hok
    refine ⟨hlen a (by simp), fun t _ hmiss => ?_⟩
    exact hmiss a (by simp)
  · rw [if_neg hone] at hok
    obtain ⟨hout_len, hall⟩ := fuse_times_ok_spec stations (List.range n) out hok
    refine ⟨by simpa using hout_len, fun t ht hmiss => ?_⟩
    have hrange : (List.range n).getD t 0 = t := by
      rw [List.getD_eq_getElem?_getD, List.getElem?_range ht]
      rfl
    have hv := hall t (by simpa using ht)
    rw [hrange, DataLoader.weighted_value_at,
      if_pos (distance_and_value_all_missing t stations hmiss),
      Except.ok.injEq] at hv
    exact hv.symm

/-- Witness for C6: two stations, both missing at the only timestamp — the
fused series is `[none]`. -/
theorem fused_missing_timestamps_stay_missing_witness :
    (([none] : List (Option ℚ)).length = 1 ∧
    ∀ t, t < 1 →
      (∀ s ∈ ([⟨1, [none]⟩, ⟨2, [none]⟩] : List StationSeries),
        s.values.getD t none = none) →
      (([none] : List (Option ℚ)).getD t none = none)) :=
  fused_missing_timestamps_stay_missing 1 [⟨1, [none]⟩, ⟨2, [none]⟩] [none]
    (by intro s hs; simp only [List.mem_cons, List.mem_singleton] at hs
        rcases hs with rfl | rfl | hs
        · rfl
        · rfl
        · exact absurd hs (List.not_mem_nil s))
    rfl

/-- C9 counterexample: latitude 100 is outside `[-90, 90]`, so the
specification's validated distance function rejects the input — but the
source function performs no validation at all and happily returns the
haversine value (here `0`, the two points being identical). -/
theorem haversine_accepts_out_of_range_coordinates :
    (90 : ℝ) < 100 ∧
    get_distance_spec_validated 100 100 0 0 = .error .invalidCoordinates ∧
    get_distance_between_two_points_on_earth 100 100 0 0 = 0 := by
  refine ⟨by norm_num, ?_, ?_⟩
  · rw [get_distance_spec_validated, if_neg]
    intro hc
    have := hc.1.2
    norm_num at this
  · rw [get_distance_between_two_points_on_earth]
    norm_num [atan2, Real.sqrt_one]

/-- C9 amended: the great-circle distance function is total and pure — it
applies the haversine formula uniformly to every input, without any
coordinate-range validation and hence without any failure mode; in particular
the distance from any point to itself is `0` even for out-of-range
coordinates. -/
theorem haversine_same_point_zero_for_all_inputs (lat lon : ℝ) :
    get_distance_between_two_points_on_earth lat lat lon lon = 0 := by
  rw [get_distance_between_two_points_on_earth]
  norm_num [atan2, Real.sqrt_one]

/-- C10: the downloader's constructor accepts the variables `so2` and `pm10`,
yet `create_xarray_dataset_with_attrs` always fails for them: after the unit
attribute is read from a (non-empty) parameter list, the `long_name` table —
which only defines `no2`, `o3` and `pm25` — raises `KeyError`. -/
theorem so2_pm10_dataset_creation_always_fails :
    OpenAQDownloader.init_variable "so2" = .ok "so2" ∧
    OpenAQDownloader.init_variable "pm10" = .ok "pm10" ∧
    ∀ v, (v = "so2" ∨ v = "pm10") →
      ∀ (loc : Location) (data : List (ℤ × ℚ)) (station : StationRow),
        ∃ e, OpenAQDownloader.create_xarray_dataset_with_attrs v loc data station =
            .error e ∧
          (station.parameters ≠ [] → e = PyError.keyError) := by
  refine ⟨rfl, rfl, fun v hv loc data station => ?_⟩
  rw [OpenAQDownloader.create_xarray_dataset_with_attrs]
  cases hp : station.parameters with
  | nil => exact ⟨.indexError, rfl, fun hne => absurd rfl hne⟩
  | cons p ps =>
    refine ⟨.keyError, ?_, fun _ => rfl⟩
    rcases hv with rfl | rfl
    · rfl
    · rfl

/-- exampleLocation is the Dubai location of the repository's test. -/
def exampleLocation : Location :=
  { location_id := "AE001", city := "Dubai", country := "United Arab Emirates",
    latitude := 25, longitude := 55 }

/-- exampleSo2Station is a station advertising `so2` measurements. -/
def exampleSo2Station : StationRow :=
  { id := 3, sensorType := "reference grade", firstUpdated := 0,
    lastUpdated := 1000, latitude := 25, longitude := 55, distance := 12,
    parameters := [⟨"so2", "ppm"⟩] }

/-- Witness for C10: dataset creation for `so2` at a concrete station with a
non-empty parameter list fails with `KeyError`. -/
theorem so2_pm10_dataset_creation_always_fails_witness :
    OpenAQDownloader.create_xarray_dataset_with_attrs "so2" exampleLocation []
      exampleSo2Station = .error PyError.keyError := by
  obtain ⟨e, he, hk⟩ :=
    so2_pm10_dataset_creation_always_fails.2.2 "so2" (Or.inl rfl)
      exampleLocation [] exampleSo2Station
  rw [he, hk (by simp [exampleSo2Station])]
